import Mathlib

/-!
Shallow embedding of the swell-engine repository (surf-quality scoring
pipeline) and verification of its specification claims.

The embedding follows the Python source files:
* `core.py`          : `calculate_physics_score` (scalar and element-wise
                       ndarray branches), `fetch_single_station_data`
* `link_and_orient.py` : `calculate_beach_angle`, per-spot core of
                       `process_spots` (swell/wind dual-linking)
* `refresh_data.py`  : `haversine`, per-spot core of `refresh` (re-linking)
* `api.py`           : merge + scoring logic of `get_live_report`
Floating-point numbers are modelled as real numbers; the station-selection
code, whose data is plain coordinates and ids, is modelled over `ℚ` so that
it stays executable.
-/

namespace SwellEngine

/-! ## Real-number helpers mirroring numpy / math primitives -/

/-- `np.radians` / `math.radians`: degrees to radians. -/
noncomputable def radians (x : ℝ) : ℝ := x * Real.pi / 180

/-- `np.degrees`: radians to degrees. -/
noncomputable def degrees (x : ℝ) : ℝ := x * 180 / Real.pi

/-- `math.atan2 y x` / `np.arctan2 y x`, via the complex argument. -/
noncomputable def atan2 (y x : ℝ) : ℝ := Complex.arg ⟨x, y⟩

/-- Python float `x % y`: the remainder carries the sign of the divisor,
so for `y > 0` the result is `x - y * floor (x / y) ∈ [0, y)`. -/
noncomputable def fmod (x y : ℝ) : ℝ := x - y * (⌊x / y⌋ : ℤ)

/-! ## Scoring Engine (`core.py`, `calculate_physics_score`)

The source computes, in order: compass-to-math angles, the dot product of
the two unit vectors, the raw wind score, the glassy override
(`np.where(wind_speed < 5.0, 100.0, wind_score)`), the gust penalty, a
clamp of the wind score, the swell power score, and the weighted sum.
The only place the scalar branch and the ndarray branch differ textually
is the two clamps guarded by `isinstance(..., np.ndarray)`:
scalar `max(0, min(100, w))` / `min(power_score, 100)` versus
ndarray `np.clip(w, 0, 100)` / `np.clip(power_score, 0, 100)`. -/

/-- The dot product of the beach-facing and wind-direction unit vectors,
after the compass-to-unit-circle conversion `radians (90 - deg)`. -/
noncomputable def dotOf (beach_facing_deg wind_dir : ℝ) : ℝ :=
  Real.cos (radians (90 - beach_facing_deg)) * Real.cos (radians (90 - wind_dir)) +
    Real.sin (radians (90 - beach_facing_deg)) * Real.sin (radians (90 - wind_dir))

/-- Wind score after the glassy override and before the gust penalty:
`wind_score = ((dot * -1) + 1) / 2 * 100` then
`np.where(wind_speed < 5.0, 100.0, wind_score)`. -/
noncomputable def wind_score_base (beach_facing_deg wind_dir wind_speed : ℝ) : ℝ :=
  if wind_speed < 5 then 100 else ((dotOf beach_facing_deg wind_dir) * (-1) + 1) / 2 * 100

/-- Wind score after the gust penalty, before clamping:
`penalty = (gust_diff - 5.0) * 2.0`, clamped at 0, applied only when
`gust_diff > 5.0`. -/
noncomputable def wind_score_penalized (beach_facing_deg wind_dir wind_speed wind_gust : ℝ) : ℝ :=
  let gust_diff := wind_gust - wind_speed
  let penalty0 := (gust_diff - 5) * 2
  let penalty := if penalty0 < 0 then 0 else penalty0
  if gust_diff > 5 then wind_score_base beach_facing_deg wind_dir wind_speed - penalty
  else wind_score_base beach_facing_deg wind_dir wind_speed

/-- Scalar-branch clamped wind score: `max(0, min(100, wind_score))`. -/
noncomputable def wind_quality (beach_facing_deg wind_dir wind_speed wind_gust : ℝ) : ℝ :=
  max 0 (min 100 (wind_score_penalized beach_facing_deg wind_dir wind_speed wind_gust))

/-- `calculate_physics_score` of `core.py`, scalar branch (float inputs):
wind clamp `max(0, min(100, wind_score))`, swell clamp `min(power_score, 100)`. -/
noncomputable def calculate_physics_score
    (beach_facing_deg wind_dir wind_speed wind_gust swell_height swell_period : ℝ) : ℝ :=
  let wind_score := wind_quality beach_facing_deg wind_dir wind_speed wind_gust
  let power := swell_height ^ 2 * swell_period
  let power_score := min (power / 300 * 100) 100
  wind_score * 0.6 + power_score * 0.4

/-- One element of `calculate_physics_score`, ndarray branch: the same
arithmetic except both clamps are `np.clip(x, 0, 100) = min (max x 0) 100`.
The vectorized scoring block of `scan.py` (`scan_the_world`, step 5)
performs this same element-wise arithmetic. -/
noncomputable def calculate_physics_score_vec
    (beach_facing_deg wind_dir wind_speed wind_gust swell_height swell_period : ℝ) : ℝ :=
  let wind_score := min (max (wind_score_penalized beach_facing_deg wind_dir wind_speed wind_gust) 0) 100
  let power := swell_height ^ 2 * swell_period
  let power_score := min (max (power / 300 * 100) 0) 100
  wind_score * 0.6 + power_score * 0.4

/-- One observation for the scoring function (six numeric inputs). -/
structure ScoreInput where
  beach_facing_deg : ℝ
  wind_dir : ℝ
  wind_speed : ℝ
  wind_gust : ℝ
  swell_height : ℝ
  swell_period : ℝ

/-- The element-wise batch form of the scoring function: the ndarray branch
of `calculate_physics_score` applied to each element of a column. -/
noncomputable def batch_score (xs : List ScoreInput) : List ℝ :=
  xs.map (fun x => calculate_physics_score_vec x.beach_facing_deg x.wind_dir
    x.wind_speed x.wind_gust x.swell_height x.swell_period)

/-! ### Helper facts about the scoring arithmetic -/

/-- When both angles are equal the two unit vectors coincide, so the dot
product is 1. -/
theorem dotOf_self (b : ℝ) : dotOf b b = 1 := by
  unfold dotOf
  rw [← Real.cos_sub, sub_self, Real.cos_zero]

theorem radians_ninety : radians 90 = Real.pi / 2 := by
  unfold radians; ring

theorem radians_neg_ninety : radians (-90) = -(Real.pi / 2) := by
  unfold radians; ring

/-- Opposite compass bearings 0 and 180 give opposite unit vectors. -/
theorem dotOf_zero_oneeighty : dotOf 0 180 = -1 := by
  unfold dotOf
  have h1 : (90 : ℝ) - 0 = 90 := by norm_num
  have h2 : (90 : ℝ) - 180 = -90 := by norm_num
  rw [h1, h2, radians_ninety, radians_neg_ninety, Real.cos_neg, Real.sin_neg,
    Real.cos_pi_div_two, Real.sin_pi_div_two]
  ring

/-- The dot product of two unit vectors is at least −1. -/
theorem dotOf_ge_neg_one (b w : ℝ) : -1 ≤ dotOf b w := by
  unfold dotOf
  rw [← Real.cos_sub]
  exact Real.neg_one_le_cos _

/-- The wind score after the glassy override is at most 100. -/
theorem wind_score_base_le (b w s : ℝ) : wind_score_base b w s ≤ 100 := by
  unfold wind_score_base
  split
  · exact le_refl _
  · nlinarith [dotOf_ge_neg_one b w]

/-- C5: for any inputs with `windSpeedKts < 5`, the wind-quality component
(the value after the glassy override, before the gust penalty and the final
clamp) equals 100 irrespective of wind direction and beach facing. -/
theorem glassy_override (beach_facing_deg wind_dir wind_speed : ℝ)
    (h : wind_speed < 5) :
    wind_score_base beach_facing_deg wind_dir wind_speed = 100 := by
  unfold wind_score_base
  exact if_pos h

/-- Witness for C5 at the concrete input `facing 90, wind 270, speed 3`. -/
theorem glassy_override_witness :
    (3 : ℝ) < 5 ∧ wind_score_base 90 270 3 = 100 :=
  ⟨by norm_num, glassy_override 90 270 3 (by norm_num)⟩

/-- `max(0, min(100, x))` (scalar branch) and `np.clip(x, 0, 100)`
(ndarray branch) agree on every real. -/
theorem clamp_eq (x : ℝ) : max 0 (min 100 x) = min (max x 0) 100 := by
  rcases le_total x 0 with h | h
  · rw [min_eq_right (by linarith : x ≤ 100), max_eq_left h, max_eq_right h,
      min_eq_left (by norm_num : (0:ℝ) ≤ 100)]
  · rcases le_total x 100 with h2 | h2
    · rw [min_eq_right h2, max_eq_right h, max_eq_left h, min_eq_left h2]
    · rw [min_eq_left h2, max_eq_right (by norm_num : (0:ℝ) ≤ 100),
        max_eq_left (by linarith : (0:ℝ) ≤ x), min_eq_right h2]

/-- Concrete evaluation: facing along wind, speed 10, no gust excess. -/
theorem wind_score_base_at_ten : wind_score_base 0 0 10 = 0 := by
  unfold wind_score_base
  rw [if_neg (by norm_num), dotOf_self]
  norm_num

/-- The full scalar score at facing 0, wind 0, speed = gust = 10,
swell 10 ft at period −3 s evaluates to −40. -/
theorem score_at_neg_period : calculate_physics_score 0 0 10 10 10 (-3) = -40 := by
  have hp : wind_score_penalized 0 0 10 10 = 0 := by
    unfold wind_score_penalized
    norm_num [wind_score_base_at_ten]
  unfold calculate_physics_score wind_quality
  rw [hp]
  norm_num

/-- C8 (amended): for all six real inputs with `swellPeriodS ≥ 0`, the
scoring function (a total function, hence no failure path) yields a final
score in `[0, 100]`. -/
theorem score_range (b wd ws wg sh sp : ℝ) (hsp : 0 ≤ sp) :
    0 ≤ calculate_physics_score b wd ws wg sh sp ∧
      calculate_physics_score b wd ws wg sh sp ≤ 100 := by
  have hw0 : 0 ≤ wind_quality b wd ws wg := le_max_left _ _
  have hw1 : wind_quality b wd ws wg ≤ 100 :=
    max_le (by norm_num) (min_le_left _ _)
  have hP : (0:ℝ) ≤ sh ^ 2 * sp / 300 * 100 := by
    have := mul_nonneg (sq_nonneg sh) hsp
    positivity
  have hp0 : (0:ℝ) ≤ min (sh ^ 2 * sp / 300 * 100) 100 := le_min hP (by norm_num)
  have hp1 : min (sh ^ 2 * sp / 300 * 100) 100 ≤ 100 := min_le_right _ _
  unfold calculate_physics_score
  constructor <;> nlinarith

/-- Refutation of C8 as stated: at the finite real inputs
`facing 0, wind 0, speed 10, gust 10, height 10, period −3` the scalar
scoring function returns −40, outside `[0, 100]`. -/
theorem score_range_counterexample : calculate_physics_score 0 0 10 10 10 (-3) < 0 := by
  rw [score_at_neg_period]; norm_num

/-- Witness for C8 (amended) at `facing 0, wind 0, speed 10, gust 10,
height 4, period 10`. -/
theorem score_range_witness :
    (0:ℝ) ≤ 10 ∧ 0 ≤ calculate_physics_score 0 0 10 10 4 10 ∧
      calculate_physics_score 0 0 10 10 4 10 ≤ 100 :=
  ⟨by norm_num, (score_range 0 0 10 10 4 10 (by norm_num)).1,
    (score_range 0 0 10 10 4 10 (by norm_num)).2⟩

/-- C7 (amended): the scalar form and the element-wise batch form agree on
every observation whose swell power `swellHeightFt² · swellPeriodS` is
nonnegative. -/
theorem scalar_eq_batch (x : ScoreInput)
    (h : 0 ≤ x.swell_height ^ 2 * x.swell_period) :
    batch_score [x] = [calculate_physics_score x.beach_facing_deg x.wind_dir
      x.wind_speed x.wind_gust x.swell_height x.swell_period] := by
  have hP : (0:ℝ) ≤ x.swell_height ^ 2 * x.swell_period / 300 * 100 := by positivity
  simp only [batch_score, List.map, calculate_physics_score_vec,
    calculate_physics_score, wind_quality]
  rw [← clamp_eq, max_eq_left hP]

/-- Refutation of C7 as stated: at swell period −3 the batch form clamps
the negative swell power to 0 while the scalar form does not, so the two
code paths disagree. -/
theorem scalar_eq_batch_counterexample :
    batch_score [⟨0, 0, 10, 10, 10, -3⟩] ≠ [calculate_physics_score 0 0 10 10 10 (-3)] := by
  have hp : wind_score_penalized 0 0 10 10 = 0 := by
    unfold wind_score_penalized
    norm_num [wind_score_base_at_ten]
  have hv : calculate_physics_score_vec 0 0 10 10 10 (-3) = 0 := by
    unfold calculate_physics_score_vec
    rw [hp]
    norm_num
  have hb : batch_score [⟨0, 0, 10, 10, 10, -3⟩] = [(0:ℝ)] := by
    simp only [batch_score, List.map]
    rw [hv]
  rw [hb, score_at_neg_period]
  norm_num

/-- Witness for C7 (amended) at `facing 0, wind 0, speed 10, gust 10,
height 4, period 10`. -/
theorem scalar_eq_batch_witness :
    (0:ℝ) ≤ (4:ℝ) ^ 2 * 10 ∧
      batch_score [⟨0, 0, 10, 10, 4, 10⟩] = [calculate_physics_score 0 0 10 10 4 10] :=
  ⟨by norm_num, scalar_eq_batch ⟨0, 0, 10, 10, 4, 10⟩ (by norm_num)⟩

/-- For a gust exceeding the sustained speed by more than 5, the penalized
wind score is the base score minus `2 · (gust − speed − 5)`. -/
theorem wind_score_penalized_eq (b wd ws g : ℝ) (h : ws + 5 < g) :
    wind_score_penalized b wd ws g = wind_score_base b wd ws - (g - ws - 5) * 2 := by
  unfold wind_score_penalized
  have hgd : (5:ℝ) < g - ws := by linarith
  have hpen : ¬ ((g - ws - 5) * 2 < 0) := by push_neg; nlinarith
  simp only [if_neg hpen, if_pos hgd]

/-- C6 (amended): with all other inputs fixed and both gusts above
`windSpeedKts + 5`, the final score is strictly decreasing in the gust as
long as the clamped wind quality at the smaller gust is still positive. -/
theorem gust_penalty_strict_mono (b wd ws sh sp g1 g2 : ℝ)
    (h12 : g1 < g2) (h1 : ws + 5 < g1)
    (hpos : 0 < wind_quality b wd ws g1) :
    calculate_physics_score b wd ws g2 sh sp < calculate_physics_score b wd ws g1 sh sp := by
  have h2 : ws + 5 < g2 := h1.trans h12
  have hble := wind_score_base_le b wd ws
  have e1 := wind_score_penalized_eq b wd ws g1 h1
  have e2 := wind_score_penalized_eq b wd ws g2 h2
  set base := wind_score_base b wd ws with hbase
  have hq1 : wind_quality b wd ws g1 = max 0 (base - (g1 - ws - 5) * 2) := by
    unfold wind_quality
    rw [e1, min_eq_right (by nlinarith)]
  have hpos1 : 0 < base - (g1 - ws - 5) * 2 := by
    by_contra hc
    push_neg at hc
    rw [hq1, max_eq_left hc] at hpos
    exact lt_irrefl _ hpos
  have hq1e : wind_quality b wd ws g1 = base - (g1 - ws - 5) * 2 := by
    rw [hq1, max_eq_right hpos1.le]
  have hq2 : wind_quality b wd ws g2 = max 0 (base - (g2 - ws - 5) * 2) := by
    unfold wind_quality
    rw [e2, min_eq_right (by nlinarith)]
  have hlt : wind_quality b wd ws g2 < wind_quality b wd ws g1 := by
    rw [hq2, hq1e]
    exact max_lt (by rw [← hq1e]; exact hpos) (by nlinarith)
  unfold calculate_physics_score
  have := hlt
  nlinarith

/-- Refutation of C6 as stated: at facing 0, wind 0, speed 10, both gusts
100 and 200 exceed `speed + 5`, yet the penalized wind quality clamps to 0
in both cases, so the final score does not strictly decrease. -/
theorem gust_penalty_strict_mono_counterexample :
    (10:ℝ) + 5 < 100 ∧ (100:ℝ) < 200 ∧
      calculate_physics_score 0 0 10 200 0 0 = calculate_physics_score 0 0 10 100 0 0 := by
  refine ⟨by norm_num, by norm_num, ?_⟩
  have e1 := wind_score_penalized_eq 0 0 10 100 (by norm_num)
  have e2 := wind_score_penalized_eq 0 0 10 200 (by norm_num)
  rw [wind_score_base_at_ten] at e1 e2
  unfold calculate_physics_score wind_quality
  rw [e1, e2]
  norm_num

/-- Evaluation helper for the C6 witness: offshore wind (facing 0,
wind from 180), speed 10, gust 16 gives clamped wind quality 98. -/
theorem wind_quality_offshore_sixteen : wind_quality 0 180 10 16 = 98 := by
  have hbase : wind_score_base 0 180 10 = 100 := by
    unfold wind_score_base
    rw [if_neg (by norm_num), dotOf_zero_oneeighty]
    norm_num
  have e := wind_score_penalized_eq 0 180 10 16 (by norm_num)
  rw [hbase] at e
  unfold wind_quality
  rw [e]
  norm_num

/-- Witness for C6 (amended): gusts 16 and 17 over speed 10, offshore wind. -/
theorem gust_penalty_strict_mono_witness :
    (16:ℝ) < 17 ∧ (10:ℝ) + 5 < 16 ∧ 0 < wind_quality 0 180 10 16 ∧
      calculate_physics_score 0 180 10 17 0 0 < calculate_physics_score 0 180 10 16 0 0 :=
  ⟨by norm_num, by norm_num, by rw [wind_quality_offshore_sixteen]; norm_num,
    gust_penalty_strict_mono 0 180 10 0 0 16 17 (by norm_num) (by norm_num)
      (by rw [wind_quality_offshore_sixteen]; norm_num)⟩

/-! ## Orientation Estimator (`link_and_orient.py`, `calculate_beach_angle`)

`np.linspace(0, 2π, n, endpoint=False)` places the sample angles at
`k · 2π / n`; each sample point is classified by the external land/water
oracle (`globe.is_ocean`), modelled as a parameter `isOcean`. -/

/-- The evenly spaced ring angles `k · 2π / n` for `k < n`. -/
noncomputable def ringAngles (num_points : ℕ) : List ℝ :=
  (List.range num_points).map (fun (k : ℕ) => 2 * Real.pi * (k : ℝ) / (num_points : ℝ))

/-- The land/water classification of each ring sample point:
`globe.is_ocean(lat + delta_deg * cos θ, lon + delta_deg * sin θ)` with
`delta_deg = radius_km / 111`. -/
noncomputable def isWaterList (isOcean : ℝ → ℝ → Bool)
    (lat lon radius_km : ℝ) (num_points : ℕ) : List Bool :=
  (ringAngles num_points).map (fun a =>
    isOcean (lat + (radius_km / 111) * Real.cos a) (lon + (radius_km / 111) * Real.sin a))

/-- The angles of the water-classified sample points (`angles[is_water]`). -/
noncomputable def waterAngles (isOcean : ℝ → ℝ → Bool)
    (lat lon radius_km : ℝ) (num_points : ℕ) : List ℝ :=
  ((ringAngles num_points).zip (isWaterList isOcean lat lon radius_km num_points)).filterMap
    (fun p => if p.2 then some p.1 else none)

/-- `calculate_beach_angle` of `link_and_orient.py`: returns −1 when every
sample is water or none is, otherwise
`degrees(arctan2(sum sin, sum cos)) % 360` over the water angles. -/
noncomputable def calculate_beach_angle (isOcean : ℝ → ℝ → Bool)
    (lat lon radius_km : ℝ) (num_points : ℕ) : ℝ :=
  let iw := isWaterList isOcean lat lon radius_km num_points
  if iw.all (fun b => b) || !(iw.any (fun b => b)) then -1
  else
    let wa := waterAngles isOcean lat lon radius_km num_points
    fmod (degrees (atan2 ((wa.map Real.sin).sum) ((wa.map Real.cos).sum))) 360

/-- Python float `%` with a positive divisor lands in `[0, y)`. -/
theorem fmod_nonneg_lt (x y : ℝ) (hy : 0 < y) : 0 ≤ fmod x y ∧ fmod x y < y := by
  have hy0 : y ≠ 0 := ne_of_gt hy
  have e : fmod x y = y * Int.fract (x / y) := by
    unfold fmod Int.fract
    rw [mul_sub, mul_comm y (x / y), div_mul_cancel₀ x hy0]
  constructor
  · rw [e]; exact mul_nonneg hy.le (Int.fract_nonneg _)
  · rw [e]
    calc y * Int.fract (x / y) < y * 1 := by
          exact (mul_lt_mul_left hy).mpr (Int.fract_lt_one _)
      _ = y := mul_one y

/-- The source's degeneracy test `np.all(is_water) or not np.any(is_water)`
says exactly: all samples are water, or all samples are land. -/
theorem degenerate_iff (iw : List Bool) :
    (iw.all (fun b => b) || !(iw.any (fun b => b))) = true ↔
      (iw.all (fun b => b) = true ∨ iw.all (fun b => !b) = true) := by
  simp [List.all_eq_true, List.any_eq_true]

/-- C4: the Orientation Estimator returns the sentinel −1 exactly when all
ring samples classify as water or all classify as land; otherwise it
returns the circular mean (atan2 of the summed unit vectors of the
water-classified angles) in degrees, normalized into `[0, 360)`. -/
theorem beach_angle_spec (isOcean : ℝ → ℝ → Bool)
    (lat lon radius_km : ℝ) (num_points : ℕ) :
    (calculate_beach_angle isOcean lat lon radius_km num_points = -1 ↔
      ((isWaterList isOcean lat lon radius_km num_points).all (fun b => b) = true ∨
        (isWaterList isOcean lat lon radius_km num_points).all (fun b => !b) = true)) ∧
    ((isWaterList isOcean lat lon radius_km num_points).any (fun b => b) = true →
      (isWaterList isOcean lat lon radius_km num_points).all (fun b => b) = false →
      calculate_beach_angle isOcean lat lon radius_km num_points =
        fmod (degrees (atan2
          (((waterAngles isOcean lat lon radius_km num_points).map Real.sin).sum)
          (((waterAngles isOcean lat lon radius_km num_points).map Real.cos).sum))) 360 ∧
      0 ≤ calculate_beach_angle isOcean lat lon radius_km num_points ∧
      calculate_beach_angle isOcean lat lon radius_km num_points < 360) := by
  have hb := fmod_nonneg_lt (degrees (atan2
    (((waterAngles isOcean lat lon radius_km num_points).map Real.sin).sum)
    (((waterAngles isOcean lat lon radius_km num_points).map Real.cos).sum))) 360 (by norm_num)
  by_cases hc : ((isWaterList isOcean lat lon radius_km num_points).all (fun b => b) ||
      !((isWaterList isOcean lat lon radius_km num_points).any (fun b => b))) = true
  · have hres : calculate_beach_angle isOcean lat lon radius_km num_points = -1 := by
      unfold calculate_beach_angle
      simp only [hc, if_true]
    refine ⟨⟨fun _ => (degenerate_iff _).mp hc, fun _ => hres⟩, fun hw hl => ?_⟩
    rw [hl] at hc
    simp only [Bool.false_or, Bool.not_eq_true', hw] at hc
    exact Bool.noConfusion hc
  · have hres : calculate_beach_angle isOcean lat lon radius_km num_points =
        fmod (degrees (atan2
          (((waterAngles isOcean lat lon radius_km num_points).map Real.sin).sum)
          (((waterAngles isOcean lat lon radius_km num_points).map Real.cos).sum))) 360 := by
      unfold calculate_beach_angle
      simp only [Bool.not_eq_true] at hc
      simp only [hc]
      simp
    constructor
    · rw [hres]
      constructor
      · intro h
        exfalso
        rw [h] at hb
        linarith [hb.1]
      · intro h
        exact absurd ((degenerate_iff _).mpr h) hc
    · intro _ _
      exact ⟨hres, by rw [hres]; exact hb.1, by rw [hres]; exact hb.2⟩

/-- A concrete land/water oracle for witnesses: water exactly on the
northern half-plane. -/
noncomputable def ocNorth : ℝ → ℝ → Bool := fun la _ => decide (0 ≤ la)

/-- Two sample points sit at angles 0 and π. -/
theorem ringAngles_two : ringAngles 2 = [0, Real.pi] := by
  unfold ringAngles
  have h2 : List.range 2 = [0, 1] := rfl
  rw [h2]
  simp only [List.map_cons, List.map_nil]
  norm_num

/-- With radius 111 km (so `delta_deg = 1`) and two sample points, the
northern sample is water and the southern one is land. -/
theorem isWaterList_ocNorth : isWaterList ocNorth 0 0 111 2 = [true, false] := by
  unfold isWaterList ocNorth
  rw [ringAngles_two]
  simp only [List.map_cons, List.map_nil, Real.cos_zero, Real.cos_pi]
  have hA : decide ((0:ℝ) ≤ 0 + 111 / 111 * 1) = true := decide_eq_true (by norm_num)
  have hB : decide ((0:ℝ) ≤ 0 + 111 / 111 * (-1)) = false := decide_eq_false (by norm_num)
  rw [hA, hB]

/-- Witness for C4 (non-degenerate branch) at the concrete oracle
`ocNorth`, two sample points. -/
theorem beach_angle_spec_witness :
    (isWaterList ocNorth 0 0 111 2).any (fun b => b) = true ∧
      (isWaterList ocNorth 0 0 111 2).all (fun b => b) = false ∧
      0 ≤ calculate_beach_angle ocNorth 0 0 111 2 ∧
      calculate_beach_angle ocNorth 0 0 111 2 < 360 := by
  have h1 : (isWaterList ocNorth 0 0 111 2).any (fun b => b) = true := by
    rw [isWaterList_ocNorth]; rfl
  have h2 : (isWaterList ocNorth 0 0 111 2).all (fun b => b) = false := by
    rw [isWaterList_ocNorth]; rfl
  exact ⟨h1, h2, ((beach_angle_spec ocNorth 0 0 111 2).2 h1 h2).2.1,
    ((beach_angle_spec ocNorth 0 0 111 2).2 h1 h2).2.2⟩

/-! ## Sensor Assignment Engine (`link_and_orient.py`, `process_spots`)

Per-spot core of the dual-linking loop. Station coordinates and spot
coordinates are rationals, so the whole selection pipeline is executable.
`cKDTree` nearest-neighbour queries under the Euclidean metric are
modelled as first-minimum selection under the squared planar distance
(the Euclidean order and the squared-distance order coincide). -/

/-- A catalog record of `all_noaa_buoys.json`: station id and coordinates. -/
structure Station where
  station_id : String
  lat : ℚ
  lon : ℚ
deriving DecidableEq

/-- The regex `^\d+$` of the swell-candidate restriction. -/
def isNumericId (s : String) : Bool := !s.isEmpty && s.toList.all (fun c => c.isDigit)

/-- Squared planar distance on raw (lat, lon) pairs. -/
def sqDist (alat alon blat blon : ℚ) : ℚ := (alat - blat) * (alat - blat) + (alon - blon) * (alon - blon)

/-- Keep the first-encountered station of minimal distance. -/
def nearestFold (d : Station → ℚ) (s : Station) (l : List Station) : Station :=
  l.foldl (fun b t => if d t < d b then t else b) s

/-- `tree.query(spot, k=1)`: the nearest station of a nonempty catalog. -/
def selectNearest (d : Station → ℚ) : List Station → Option Station
  | [] => none
  | s :: rest => some (nearestFold d s rest)

/-- `tree.query(spot, k=2)`: the nearest station, then the nearest among
the remaining records. -/
def selectNearestTwo (d : Station → ℚ) (l : List Station) : Option (Station × Station) :=
  match selectNearest d l with
  | none => none
  | some c1 =>
    match selectNearest d (l.erase c1) with
    | none => none
    | some c2 => some (c1, c2)

/-- Per-spot core of `process_spots`: the swell id is the nearest
numeric-id station; the wind id comes from the two nearest stations of the
unrestricted catalog, skipping the first when it equals the swell id. -/
def processSpotsAssign (slat slng : ℚ) (stations : List Station) : Option (String × String) :=
  let d := fun st : Station => sqDist slat slng st.lat st.lon
  let wave_buoys := stations.filter (fun st => isNumericId st.station_id)
  match selectNearest d wave_buoys, selectNearestTwo d stations with
  | some sw, some (c1, c2) =>
    some (sw.station_id,
      if c1.station_id = sw.station_id then c2.station_id else c1.station_id)
  | _, _ => none

/-- The fold result is the seed or one of the list elements. -/
theorem nearestFold_mem (d : Station → ℚ) (s : Station) (l : List Station) :
    nearestFold d s l ∈ s :: l := by
  induction l generalizing s with
  | nil => simp [nearestFold]
  | cons t ts ih =>
    have e : nearestFold d s (t :: ts) = nearestFold d (if d t < d s then t else s) ts := rfl
    rw [e]
    by_cases hd : d t < d s
    · rw [if_pos hd]
      exact List.mem_cons_of_mem s (ih t)
    · rw [if_neg hd]
      rcases List.mem_cons.mp (ih s) with h1 | h1
      · rw [h1]; exact List.mem_cons_self s (t :: ts)
      · exact List.mem_cons_of_mem s (List.mem_cons_of_mem t h1)

/-- The fold result minimizes the distance over the seed and the list. -/
theorem nearestFold_min (d : Station → ℚ) (s : Station) (l : List Station) :
    ∀ t ∈ s :: l, d (nearestFold d s l) ≤ d t := by
  induction l generalizing s with
  | nil =>
    intro t ht
    rcases List.mem_cons.mp ht with h | h
    · rw [h]; exact le_refl _
    · exact absurd h (List.not_mem_nil t)
  | cons u us ih =>
    intro t ht
    have e : nearestFold d s (u :: us) = nearestFold d (if d u < d s then u else s) us := rfl
    rw [e]
    by_cases hd : d u < d s
    · rw [if_pos hd]
      have hseed := ih u u (List.mem_cons_self _ _)
      rcases List.mem_cons.mp ht with h | h
      · rw [h]; exact le_trans hseed (le_of_lt hd)
      · rcases List.mem_cons.mp h with h2 | h2
        · rw [h2]; exact hseed
        · exact ih u t (List.mem_cons_of_mem u h2)
    · rw [if_neg hd]
      have hseed := ih s s (List.mem_cons_self _ _)
      rcases List.mem_cons.mp ht with h | h
      · rw [h]; exact hseed
      · rcases List.mem_cons.mp h with h2 | h2
        · rw [h2]; exact le_trans hseed (not_lt.mp hd)
        · exact ih s t (List.mem_cons_of_mem s h2)

theorem selectNearest_mem (d : Station → ℚ) {l : List Station} {c : Station}
    (h : selectNearest d l = some c) : c ∈ l := by
  cases l with
  | nil => simp [selectNearest] at h
  | cons s rest =>
    unfold selectNearest at h
    have hc : nearestFold d s rest = c := Option.some.inj h
    rw [← hc]
    exact nearestFold_mem d s rest

theorem selectNearest_min (d : Station → ℚ) {l : List Station} {c : Station}
    (h : selectNearest d l = some c) : ∀ t ∈ l, d c ≤ d t := by
  cases l with
  | nil => simp [selectNearest] at h
  | cons s rest =>
    unfold selectNearest at h
    have hc : nearestFold d s rest = c := Option.some.inj h
    intro t ht
    rw [← hc]
    exact nearestFold_min d s rest t ht

/-- Specification of the two-nearest query: the first result minimizes the
distance over the catalog, the second minimizes it over the catalog with
the first removed. -/
theorem selectNearestTwo_spec (d : Station → ℚ) {l : List Station} {c1 c2 : Station}
    (h : selectNearestTwo d l = some (c1, c2)) :
    c1 ∈ l ∧ (∀ t ∈ l, d c1 ≤ d t) ∧ c2 ∈ l.erase c1 ∧
      (∀ t ∈ l.erase c1, d c2 ≤ d t) := by
  unfold selectNearestTwo at h
  split at h
  · exact absurd h (by simp)
  · rename_i a h1
    split at h
    · exact absurd h (by simp)
    · rename_i b h2
      have hab : a = c1 ∧ b = c2 := by simpa using h
      obtain ⟨ha, hb⟩ := hab
      subst ha
      subst hb
      exact ⟨selectNearest_mem d h1, selectNearest_min d h1,
        selectNearest_mem d h2, selectNearest_min d h2⟩

/-- C1 (amended): after the initial dual-linking (`process_spots`), for a
catalog with pairwise-distinct station ids, whenever both assignments are
produced the wind id differs from the swell id. -/
theorem assignment_diversity (slat slng : ℚ) (stations : List Station)
    (hids : (stations.map Station.station_id).Nodup)
    (sid wid : String)
    (h : processSpotsAssign slat slng stations = some (sid, wid)) :
    wid ≠ sid := by
  unfold processSpotsAssign at h
  dsimp only at h
  split at h
  · rename_i sw c1 c2 hsw hnt
    have hpair : sw.station_id = sid ∧
        (if c1.station_id = sw.station_id then c2.station_id else c1.station_id) = wid := by
      simpa using h
    obtain ⟨hsid, hwid⟩ := hpair
    have hn : stations.Nodup := hids.of_map _
    obtain ⟨hc1mem, _, hc2mem, _⟩ := selectNearestTwo_spec _ hnt
    obtain ⟨hne, hc2l⟩ := (List.Nodup.mem_erase_iff hn).mp hc2mem
    by_cases hcase : c1.station_id = sw.station_id
    · rw [if_pos hcase] at hwid
      rw [← hwid, ← hsid]
      intro heq
      exact hne (List.inj_on_of_nodup_map hids hc2l hc1mem (heq.trans hcase.symm))
    · rw [if_neg hcase] at hwid
      rw [← hwid, ← hsid]
      exact hcase
  · exact absurd h (by simp)

/-- A two-station witness catalog: the numeric-id buoy is the nearest
station, so the diversity rule must fall back to the second nearest. -/
def catalogW : List Station := [⟨"42", 0, 1⟩, ⟨"A1", 0, 2⟩]

/-- Evaluation of the dual-linking on the witness catalog. -/
theorem processSpotsAssign_catalogW :
    processSpotsAssign 0 0 catalogW = some ("42", "A1") := by
  have h42 : isNumericId "42" = true := by decide
  have hA1 : isNumericId "A1" = false := by decide
  norm_num [processSpotsAssign, selectNearest, selectNearestTwo, nearestFold, sqDist,
    h42, hA1, catalogW, List.filter, List.erase, List.foldl]

/-- Witness for C1 (amended) on a two-station catalog where the nearest
station is also the swell buoy. -/
theorem assignment_diversity_witness :
    ((catalogW.map Station.station_id).Nodup ∧
      processSpotsAssign 0 0 catalogW = some ("42", "A1")) ∧
      "A1" ≠ "42" :=
  ⟨⟨by decide, processSpotsAssign_catalogW⟩,
    assignment_diversity 0 0 catalogW (by decide) "42" "A1" processSpotsAssign_catalogW⟩

/-- C2: whenever `process_spots` produces an assignment, the wind id comes
from the two nearest stations of the unrestricted catalog — the second
nearest when the nearest one carries the swell id, the nearest otherwise. -/
theorem wind_assignment_rule (slat slng : ℚ) (stations : List Station)
    (sid wid : String)
    (h : processSpotsAssign slat slng stations = some (sid, wid)) :
    ∃ c1 c2 : Station, c1 ∈ stations ∧
      (∀ t ∈ stations, sqDist slat slng c1.lat c1.lon ≤ sqDist slat slng t.lat t.lon) ∧
      c2 ∈ stations.erase c1 ∧
      (∀ t ∈ stations.erase c1, sqDist slat slng c2.lat c2.lon ≤ sqDist slat slng t.lat t.lon) ∧
      wid = (if c1.station_id = sid then c2.station_id else c1.station_id) := by
  unfold processSpotsAssign at h
  dsimp only at h
  split at h
  · rename_i sw c1 c2 hsw hnt
    have hpair : sw.station_id = sid ∧
        (if c1.station_id = sw.station_id then c2.station_id else c1.station_id) = wid := by
      simpa using h
    obtain ⟨hsid, hwid⟩ := hpair
    obtain ⟨hm1, hmin1, hm2, hmin2⟩ := selectNearestTwo_spec _ hnt
    exact ⟨c1, c2, hm1, hmin1, hm2, hmin2, by rw [← hwid, hsid]⟩
  · exact absurd h (by simp)

/-- Witness for C2 on the two-station catalog. -/
theorem wind_assignment_rule_witness :
    processSpotsAssign 0 0 catalogW = some ("42", "A1") ∧
    ∃ c1 c2 : Station, c1 ∈ catalogW ∧
      (∀ t ∈ catalogW, sqDist 0 0 c1.lat c1.lon ≤ sqDist 0 0 t.lat t.lon) ∧
      c2 ∈ catalogW.erase c1 ∧
      (∀ t ∈ catalogW.erase c1, sqDist 0 0 c2.lat c2.lon ≤ sqDist 0 0 t.lat t.lon) ∧
      "A1" = (if c1.station_id = "42" then c2.station_id else c1.station_id) :=
  ⟨processSpotsAssign_catalogW,
    wind_assignment_rule 0 0 catalogW "42" "A1" processSpotsAssign_catalogW⟩

/-- C3 (amended): in the initial dual-linking, the swell id is drawn from
the numeric-id candidates only, minimizing the squared planar distance
over that candidate set. -/
theorem swell_assignment_initial (slat slng : ℚ) (stations : List Station)
    (sid wid : String)
    (h : processSpotsAssign slat slng stations = some (sid, wid)) :
    ∃ c : Station, c ∈ stations ∧ isNumericId c.station_id = true ∧
      (∀ t ∈ stations, isNumericId t.station_id = true →
        sqDist slat slng c.lat c.lon ≤ sqDist slat slng t.lat t.lon) ∧
      sid = c.station_id := by
  unfold processSpotsAssign at h
  dsimp only at h
  split at h
  · rename_i sw c1 c2 hsw hnt
    have hpair : sw.station_id = sid ∧
        (if c1.station_id = sw.station_id then c2.station_id else c1.station_id) = wid := by
      simpa using h
    obtain ⟨hsid, _⟩ := hpair
    have hmem := selectNearest_mem _ hsw
    have hmin := selectNearest_min _ hsw
    rw [List.mem_filter] at hmem
    refine ⟨sw, hmem.1, hmem.2, ?_, hsid.symm⟩
    intro t ht htn
    exact hmin t (List.mem_filter.mpr ⟨ht, htn⟩)
  · exact absurd h (by simp)

/-- Witness for C3 (amended) on the two-station catalog. -/
theorem swell_assignment_initial_witness :
    processSpotsAssign 0 0 catalogW = some ("42", "A1") ∧
    ∃ c : Station, c ∈ catalogW ∧ isNumericId c.station_id = true ∧
      (∀ t ∈ catalogW, isNumericId t.station_id = true →
        sqDist 0 0 c.lat c.lon ≤ sqDist 0 0 t.lat t.lon) ∧
      "42" = c.station_id :=
  ⟨processSpotsAssign_catalogW,
    swell_assignment_initial 0 0 catalogW "42" "A1" processSpotsAssign_catalogW⟩

/-! ## Re-linking pass (`refresh_data.py`, `refresh`)

The refresh job rebuilds both channels per spot from the latest
observation table: swell candidates are the rows with a wave-height value
(`WVHT` present), wind candidates the rows with a wind-speed value
(`WSPD` present); each channel independently takes the nearest candidate
under the haversine distance, with no diversity constraint. -/

/-- `haversine` of `refresh_data.py` (R = 6371 km). -/
noncomputable def haversine (lat1 lon1 lat2 lon2 : ℝ) : ℝ :=
  let dlat := radians (lat2 - lat1)
  let dlon := radians (lon2 - lon1)
  let a := Real.sin (dlat / 2) * Real.sin (dlat / 2) +
    Real.cos (radians lat1) * Real.cos (radians lat2) *
      Real.sin (dlon / 2) * Real.sin (dlon / 2)
  let c := 2 * atan2 (Real.sqrt a) (Real.sqrt (1 - a))
  6371 * c

/-- One row of the downloaded `latest_obs.txt` table after the dropna on
coordinates: station id, position, and the optional wave-height and
wind-speed readings (`None` models `MM`/NaN). -/
structure ObsRow where
  stn : String
  lat : ℚ
  lon : ℚ
  wvht : Option ℚ
  wspd : Option ℚ
deriving DecidableEq

/-- `swell_df = df.dropna(subset=["WVHT"])` followed by `df_to_list`. -/
def swellStationsOf (rows : List ObsRow) : List Station :=
  (rows.filter (fun r => r.wvht.isSome)).map (fun r => ⟨r.stn, r.lat, r.lon⟩)

/-- `wind_df = df.dropna(subset=["WSPD"])` followed by `df_to_list`. -/
def windStationsOf (rows : List ObsRow) : List Station :=
  (rows.filter (fun r => r.wspd.isSome)).map (fun r => ⟨r.stn, r.lat, r.lon⟩)

/-- The linear scan of `refresh`: starting from `min_dist = inf`, keep the
id of the first station strictly closer than every earlier one. -/
noncomputable def refreshNearestId (tlat tlng : ℚ) (stations : List Station) : Option String :=
  (stations.foldl
    (fun acc s =>
      match acc with
      | none => some (s.station_id, haversine (tlat : ℝ) (tlng : ℝ) (s.lat : ℝ) (s.lon : ℝ))
      | some (bid, bd) =>
        if haversine (tlat : ℝ) (tlng : ℝ) (s.lat : ℝ) (s.lon : ℝ) < bd then
          some (s.station_id, haversine (tlat : ℝ) (tlng : ℝ) (s.lat : ℝ) (s.lon : ℝ))
        else some (bid, bd))
    none).map Prod.fst

/-- One record of `master_surf_spots.json` as used by `refresh`. -/
structure SpotRow where
  lat : ℚ
  lng : ℚ
  primary_buoy_id : Option String
  wind_station_id : Option String
deriving DecidableEq

/-- Net effect of `if best_id and spot.get(field) != best_id:
spot[field] = best_id`: the stored id becomes the best id whenever one was
found (and is truthy), otherwise it is left alone. -/
def applyBest (old best : Option String) : Option String :=
  match best with
  | none => old
  | some b => if b = "" then old else some b

/-- Per-spot core of `refresh`: re-link both channels independently. -/
noncomputable def refreshSpot (spot : SpotRow) (rows : List ObsRow) : SpotRow :=
  { spot with
    primary_buoy_id :=
      applyBest spot.primary_buoy_id (refreshNearestId spot.lat spot.lng (swellStationsOf rows)),
    wind_station_id :=
      applyBest spot.wind_station_id (refreshNearestId spot.lat spot.lng (windStationsOf rows)) }

/-- On a two-station catalog sharing one position, the scan keeps the
first station (the second is not strictly closer). -/
theorem refreshNearestId_pair :
    refreshNearestId 5 5 [⟨"100", 1, 1⟩, ⟨"200", 1, 1⟩] = some "100" := by
  unfold refreshNearestId
  rw [List.foldl_cons, List.foldl_cons, List.foldl_nil]
  dsimp only
  rw [if_neg (lt_irrefl _)]
  rfl

/-- Refutation of C1 as stated: the re-linking pass has no diversity rule.
With two distinct stations that both report wave height and wind speed
from the same position, both channels re-link to the same station "100",
violating `windStationId ≠ swellStationId` despite two eligible
candidates on each channel. -/
theorem relinking_diversity_counterexample :
    ((swellStationsOf [⟨"100", 1, 1, some 2, some 3⟩, ⟨"200", 1, 1, some 1, some 4⟩]).map
        Station.station_id).Nodup ∧
    (swellStationsOf [⟨"100", 1, 1, some 2, some 3⟩, ⟨"200", 1, 1, some 1, some 4⟩]).length = 2 ∧
    ((windStationsOf [⟨"100", 1, 1, some 2, some 3⟩, ⟨"200", 1, 1, some 1, some 4⟩]).map
        Station.station_id).Nodup ∧
    (windStationsOf [⟨"100", 1, 1, some 2, some 3⟩, ⟨"200", 1, 1, some 1, some 4⟩]).length = 2 ∧
    (refreshSpot ⟨5, 5, none, none⟩
        [⟨"100", 1, 1, some 2, some 3⟩, ⟨"200", 1, 1, some 1, some 4⟩]).primary_buoy_id =
      some "100" ∧
    (refreshSpot ⟨5, 5, none, none⟩
        [⟨"100", 1, 1, some 2, some 3⟩, ⟨"200", 1, 1, some 1, some 4⟩]).wind_station_id =
      some "100" := by
  have hs : swellStationsOf [⟨"100", 1, 1, some 2, some 3⟩, ⟨"200", 1, 1, some 1, some 4⟩] =
      [⟨"100", 1, 1⟩, ⟨"200", 1, 1⟩] := by rfl
  have hw : windStationsOf [⟨"100", 1, 1, some 2, some 3⟩, ⟨"200", 1, 1, some 1, some 4⟩] =
      [⟨"100", 1, 1⟩, ⟨"200", 1, 1⟩] := by rfl
  refine ⟨by rw [hs]; decide, by rw [hs]; rfl, by rw [hw]; decide, by rw [hw]; rfl, ?_, ?_⟩
  · show applyBest none (refreshNearestId 5 5 (swellStationsOf _)) = some "100"
    rw [hs, refreshNearestId_pair]
    rfl
  · show applyBest none (refreshNearestId 5 5 (windStationsOf _)) = some "100"
    rw [hw, refreshNearestId_pair]
    rfl

/-- Refutation of C3 as stated: the re-linking pass selects swell sources
among all wave-reporting rows, numeric id or not, so a station with the
alphanumeric id "ABCD1" can become (and here becomes) the swell
assignment. -/
theorem relinking_numeric_counterexample :
    (refreshSpot ⟨5, 5, none, none⟩ [⟨"ABCD1", 1, 1, some 2, none⟩]).primary_buoy_id =
      some "ABCD1" ∧
    isNumericId "ABCD1" = false := by
  constructor
  · rfl
  · decide

/-! ## Telemetry Fetcher and live-report path (`core.py`, `api.py`)

`fetch_single_station_data` wraps the whole download/parse in
`try ... except Exception: return None`; the external transport is
modelled as an `Except` value. A reading's fields are optional (NaN from
`na_values="MM"` is `none`); the display-only temperature fields play no
role in any claim and are omitted. -/

/-- A parsed, unit-normalized reading (the renamed Series row). -/
structure Reading where
  windDir : Option ℝ
  windSpeed : Option ℝ
  windGust : Option ℝ
  swellHeight : Option ℝ
  swellPeriod : Option ℝ

/-- The raw parsed row before renaming and unit conversion. -/
structure RawReading where
  windDir : Option ℝ
  windSpeed : Option ℝ
  windGust : Option ℝ
  swellHeight : Option ℝ
  swellPeriod : Option ℝ

/-- `fetch_single_station_data` of `core.py`: any failure becomes `None`
(Absent); on success the fields are unit-converted exactly once
(m/s → knots ×1.94384, m → ft ×3.28084). -/
noncomputable def fetch_single_station_data
    (download : Except String RawReading) : Option Reading :=
  match download with
  | Except.error _ => none
  | Except.ok r =>
    some { windDir := r.windDir,
           windSpeed := r.windSpeed.map (fun v => v * 1.94384),
           windGust := r.windGust.map (fun v => v * 1.94384),
           swellHeight := r.swellHeight.map (fun v => v * 3.28084),
           swellPeriod := r.swellPeriod }

/-- `pd.Series(dtype=float)`: the empty base record. -/
def emptyReading : Reading := ⟨none, none, none, none, none⟩

/-- Merge step of `get_live_report`: base is the swell reading (empty when
absent); when the wind reading is present its wind fields overwrite the
base unconditionally. -/
def fuseData (swell wind : Option Reading) : Reading :=
  let base := swell.getD emptyReading
  match wind with
  | none => base
  | some w => { base with windSpeed := w.windSpeed, windGust := w.windGust,
                          windDir := w.windDir }

/-- Outcome of the live query after the spot lookup succeeded. -/
inductive LiveReport where
  | offline
  | report (score : ℝ)

/-- The registry fields of one spot used by the live-report path. -/
structure ApiSpot where
  primary_buoy_id : String
  wind_station_id : String
  beach_facing_deg : ℝ

/-- Telemetry-and-scoring core of `get_live_report` (`api.py`): fetch both
assigned stations, raise 503 "Offline" only when both are absent,
otherwise merge, fill the scoring inputs' missing values with 0, and
score with the spot's stored facing. -/
noncomputable def get_live_report (fetch : String → Option Reading)
    (spot : ApiSpot) : LiveReport :=
  match fetch spot.primary_buoy_id, fetch spot.wind_station_id with
  | none, none => LiveReport.offline
  | sd, wd =>
    let data := fuseData sd wd
    LiveReport.report (calculate_physics_score spot.beach_facing_deg
      (data.windDir.getD 0) (data.windSpeed.getD 0) (data.windGust.getD 0)
      (data.swellHeight.getD 0) (data.swellPeriod.getD 0))

/-- C9: every fetch failure is converted to Absent at the fetcher boundary
(never raised further); the live report is "Offline" exactly when both
assigned fetches are absent; with at least one reading present a fused
observation is scored and reported. -/
theorem telemetry_failure_containment :
    (∀ e : String, fetch_single_station_data (Except.error e) = none) ∧
    (∀ (fetch : String → Option Reading) (spot : ApiSpot),
      get_live_report fetch spot = LiveReport.offline ↔
        (fetch spot.primary_buoy_id = none ∧ fetch spot.wind_station_id = none)) ∧
    (∀ (fetch : String → Option Reading) (spot : ApiSpot),
      (fetch spot.primary_buoy_id ≠ none ∨ fetch spot.wind_station_id ≠ none) →
      ∃ s : ℝ, get_live_report fetch spot = LiveReport.report s) := by
  have hoff : ∀ (fetch : String → Option Reading) (spot : ApiSpot),
      get_live_report fetch spot = LiveReport.offline ↔
        (fetch spot.primary_buoy_id = none ∧ fetch spot.wind_station_id = none) := by
    intro fetch spot
    unfold get_live_report
    cases hp : fetch spot.primary_buoy_id <;> cases hw : fetch spot.wind_station_id <;> simp
  refine ⟨fun e => rfl, hoff, fun fetch spot h => ?_⟩
  cases hr : get_live_report fetch spot with
  | offline =>
    obtain ⟨h1, h2⟩ := (hoff fetch spot).mp hr
    rcases h with hne | hne
    · exact absurd h1 hne
    · exact absurd h2 hne
  | report s => exact ⟨s, rfl⟩

/-- A concrete healthy reading and fetcher for the witnesses. -/
noncomputable def readingW : Reading := ⟨some 270, some 10, some 12, some 4, some 10⟩

noncomputable def fetchW : String → Option Reading := fun _ => some readingW

noncomputable def spotW : ApiSpot := ⟨"41002", "MLRF1", 90⟩

/-- Witness for C9: a failed download is Absent, and a live fetcher yields
a scored report. -/
theorem telemetry_failure_containment_witness :
    fetch_single_station_data (Except.error "timeout") = none ∧
      ∃ s : ℝ, get_live_report fetchW spotW = LiveReport.report s :=
  ⟨telemetry_failure_containment.1 "timeout",
    telemetry_failure_containment.2.2 fetchW spotW (Or.inl (by simp [fetchW]))⟩

/-- C10: the indeterminate sentinel is the numeric value −1 (returned by
the Orientation Estimator in the degenerate cases), and the live-report
path never tests for it: a spot whose stored facing is −1 is scored with
−1 as an ordinary bearing, so no Indeterminate outcome reaches the query
interface. -/
theorem indeterminate_unchecked :
    (∀ (isOcean : ℝ → ℝ → Bool) (lat lon radius_km : ℝ) (num_points : ℕ),
      ((isWaterList isOcean lat lon radius_km num_points).all (fun b => b) = true ∨
        (isWaterList isOcean lat lon radius_km num_points).all (fun b => !b) = true) →
      calculate_beach_angle isOcean lat lon radius_km num_points = -1) ∧
    (∀ (fetch : String → Option Reading) (spot : ApiSpot),
      spot.beach_facing_deg = -1 →
      (fetch spot.primary_buoy_id ≠ none ∨ fetch spot.wind_station_id ≠ none) →
      get_live_report fetch spot = LiveReport.report
        (calculate_physics_score (-1)
          ((fuseData (fetch spot.primary_buoy_id) (fetch spot.wind_station_id)).windDir.getD 0)
          ((fuseData (fetch spot.primary_buoy_id) (fetch spot.wind_station_id)).windSpeed.getD 0)
          ((fuseData (fetch spot.primary_buoy_id) (fetch spot.wind_station_id)).windGust.getD 0)
          ((fuseData (fetch spot.primary_buoy_id) (fetch spot.wind_station_id)).swellHeight.getD 0)
          ((fuseData (fetch spot.primary_buoy_id) (fetch spot.wind_station_id)).swellPeriod.getD 0))) := by
  constructor
  · intro isOcean lat lon radius_km num_points hdeg
    exact (beach_angle_spec isOcean lat lon radius_km num_points).1.mpr hdeg
  · intro fetch spot hface h
    unfold get_live_report
    cases hp : fetch spot.primary_buoy_id <;> cases hw : fetch spot.wind_station_id
    · rcases h with hne | hne
      · exact absurd hp hne
      · exact absurd hw hne
    · rw [hface]
    · rw [hface]
    · rw [hface]

/-- A registry record carrying the −1 sentinel as its facing. -/
noncomputable def spotIndet : ApiSpot := ⟨"41002", "MLRF1", -1⟩

/-- Witness for C10: a fully-water ring yields −1, and a spot stored with
facing −1 still gets a numeric report. -/
theorem indeterminate_unchecked_witness :
    calculate_beach_angle (fun _ _ => true) 0 0 5 36 = -1 ∧
      get_live_report fetchW spotIndet = LiveReport.report
        (calculate_physics_score (-1)
          ((fuseData (fetchW spotIndet.primary_buoy_id) (fetchW spotIndet.wind_station_id)).windDir.getD 0)
          ((fuseData (fetchW spotIndet.primary_buoy_id) (fetchW spotIndet.wind_station_id)).windSpeed.getD 0)
          ((fuseData (fetchW spotIndet.primary_buoy_id) (fetchW spotIndet.wind_station_id)).windGust.getD 0)
          ((fuseData (fetchW spotIndet.primary_buoy_id) (fetchW spotIndet.wind_station_id)).swellHeight.getD 0)
          ((fuseData (fetchW spotIndet.primary_buoy_id) (fetchW spotIndet.wind_station_id)).swellPeriod.getD 0)) := by
  constructor
  · apply indeterminate_unchecked.1
    left
    simp [isWaterList]
  · exact indeterminate_unchecked.2 fetchW spotIndet rfl (Or.inl (by simp [fetchW]))

end SwellEngine
